import Mathlib

/-!
Verification of the `update-loop` library (class `UpdateLoop`).

The embedding below models the single source file faithfully:
  * JavaScript numbers are modelled by `JSNum` (finite rationals plus
    NaN and the two infinities), because the source's arithmetic really
    produces NaN (subtracting an `undefined` start time) and Infinity
    (`1000 / 0` for a falsy target FPS).
  * The mutable instance state of `UpdateLoop` is the record `LoopState`.
  * The two timing drivers (`setInterval` and `requestAnimationFrame`)
    are modelled by the `Driver` type; the platform primitives are
    modelled by the `fireTimer` / `fireRAF` events, which dispatch only
    while the corresponding primitive is armed (cancelling a timer or an
    animation-frame request removes any queued firing, which is the
    platform semantics of `clearInterval` / `cancelAnimationFrame`).
    A driver replaced by a later `start()` without its primitive being
    cancelled lives on in `orphans`; a leaked interval chain keeps
    firing through `fireOrphanTimer`.
  * Registrant callbacks are opaque: a dispatch appends the invocations
    it would perform to the instrumentation field `trace`.  The field
    `startCount` is likewise instrumentation: it counts how many times a
    driver's `start` routine has run.
-/

namespace UpdateLoopModel

/-- A JavaScript number: NaN, +Infinity, -Infinity, or a finite value
(modelled as a rational; `performance.now()` timestamps and all the
arithmetic of the source stay in this fragment). -/
inductive JSNum where
  | nan : JSNum
  | inf : JSNum
  | ninf : JSNum
  | fin : ℚ → JSNum
deriving DecidableEq, Repr

namespace JSNum

/-- JS addition (`+` on numbers). -/
def add : JSNum → JSNum → JSNum
  | nan, _ => nan
  | _, nan => nan
  | inf, ninf => nan
  | ninf, inf => nan
  | inf, _ => inf
  | _, inf => inf
  | ninf, _ => ninf
  | _, ninf => ninf
  | fin a, fin b => fin (a + b)

/-- JS negation. -/
def neg : JSNum → JSNum
  | nan => nan
  | inf => ninf
  | ninf => inf
  | fin a => fin (-a)

/-- JS subtraction. -/
def sub (a b : JSNum) : JSNum := add a (neg b)

/-- JS division (`/`), ignoring the sign of zero (the source never
divides by a negative zero). -/
def div : JSNum → JSNum → JSNum
  | nan, _ => nan
  | _, nan => nan
  | inf, inf => nan
  | inf, ninf => nan
  | ninf, inf => nan
  | ninf, ninf => nan
  | inf, fin b => if b < 0 then ninf else inf
  | ninf, fin b => if b < 0 then inf else ninf
  | fin _, inf => fin 0
  | fin _, ninf => fin 0
  | fin a, fin b =>
      if b = 0 then (if a = 0 then nan else if 0 < a then inf else ninf)
      else fin (a / b)

/-- `Math.floor` (`Rat.floor` is used because it evaluates; it agrees
with the mathematical floor, see `ratFloor_eq_intFloor` below). -/
def floor : JSNum → JSNum
  | nan => nan
  | inf => inf
  | ninf => ninf
  | fin a => fin (a.floor : ℚ)

/-- `Math.abs`. -/
def abs : JSNum → JSNum
  | nan => nan
  | inf => inf
  | ninf => inf
  | fin a => fin |a|

/-- JS `>` as a boolean; any comparison involving NaN is false. -/
def gtb : JSNum → JSNum → Bool
  | nan, _ => false
  | _, nan => false
  | inf, inf => false
  | inf, _ => true
  | ninf, _ => false
  | fin _, inf => false
  | fin _, ninf => true
  | fin a, fin b => decide (b < a)

/-- JS `>=` as a boolean; any comparison involving NaN is false. -/
def geb : JSNum → JSNum → Bool
  | nan, _ => false
  | _, nan => false
  | inf, _ => true
  | ninf, ninf => true
  | ninf, _ => false
  | fin _, inf => false
  | fin _, ninf => true
  | fin a, fin b => decide (b ≤ a)

/-- JS truthiness of a number: `0` and NaN are falsy. -/
def truthy : JSNum → Bool
  | nan => false
  | inf => true
  | ninf => true
  | fin a => decide (a ≠ 0)

end JSNum

/-- A registrant: an object exposing any subset of the three phase
capabilities, and possibly being itself directly callable (a bare
function is `callable := true` with the three flags false).  Two
registrants are the same JS object exactly when they are equal values
of this type (identity semantics of `===`). -/
structure Registrant where
  tag : ℕ
  hasEarly : Bool
  hasUpd : Bool
  hasLate : Bool
  callable : Bool
deriving DecidableEq, Repr

/-- Which callback of a registrant an invocation went to. -/
inductive Phase where
  | early : Phase
  | upd : Phase
  | late : Phase
  | bare : Phase
deriving DecidableEq, Repr

/-- One observed callback invocation: which capability, on which
registrant, with which `deltaTime` argument. -/
structure Event where
  phase : Phase
  reg : Registrant
  dt : JSNum
deriving DecidableEq, Repr

/-- The timing-driver object stored in `this.loop`.  For the interval
driver, `timerSet` records whether the `setInterval` handle is live
(false once `clearInterval` ran).  For the RAF driver, `startTime` is
`this.loop.startTime` (`none` while still undefined) and `pending`
records whether an animation-frame request is queued (false once
`cancelAnimationFrame` ran). -/
inductive Driver where
  | interval : Bool → Driver
  | raf : Option JSNum → Bool → Driver
deriving DecidableEq, Repr

/-- The instance state of an `UpdateLoop`, plus the two instrumentation
fields `trace` and `startCount`. `jitter` and `droppedFrame` are
`Option`s because those properties are undefined until first assigned;
`timer` is the never-reassigned `this.timer` field (always `none` after
the constructor). `targetFPS` is `none` when the caller passed `null`.

`loop` is the driver object currently referenced by `this.loop`.
`orphans` holds the driver objects whose reference was dropped when a
later `start()` overwrote `this.loop`: the source never cancels the
previous driver's platform primitive before overwriting, so a leaked
driver's `setInterval` chain (or queued animation-frame callback) stays
armed and keeps firing. -/
structure LoopState where
  objects : List Registrant
  active : Bool
  targetFPS : Option JSNum
  timer : Option Unit
  frame : JSNum
  mode : Int
  totalJitter : JSNum
  jitter : Option JSNum
  lastUpdate : JSNum
  loop : Option Driver
  orphans : List Driver
  droppedFrame : Option Bool
  trace : List Event
  startCount : ℕ
deriving DecidableEq, Repr

/-- `ToNumber` coercion applied to `this.targetFPS` by `1000 / this.targetFPS`:
`null` converts to `0`. -/
def targetAsNum : Option JSNum → JSNum
  | none => JSNum.fin 0
  | some v => v

/-- The getter `get delay() { return Math.floor(1000 / this.targetFPS); }`. -/
def LoopState.delay (s : LoopState) : JSNum :=
  JSNum.floor (JSNum.div (JSNum.fin 1000) (targetAsNum s.targetFPS))

/-- The test `!this.targetFPS`: true when the target FPS is `null`, `0`
or NaN. -/
def targetFalsy (s : LoopState) : Bool :=
  match s.targetFPS with
  | none => true
  | some v => !v.truthy

/-- The invocations one call of `update(now)` performs, in order: the
earlyUpdate pass, then the update pass (falling back to calling a bare
function directly), then the lateUpdate pass.  Each pass walks the whole
registered set before the next pass starts. -/
def dispatchEvents (objs : List Registrant) (dt : JSNum) : List Event :=
  objs.filterMap (fun r => if r.hasEarly then some ⟨Phase.early, r, dt⟩ else none)
    ++ objs.filterMap (fun r =>
        if r.hasUpd then some ⟨Phase.upd, r, dt⟩
        else if r.callable then some ⟨Phase.bare, r, dt⟩ else none)
    ++ objs.filterMap (fun r => if r.hasLate then some ⟨Phase.late, r, dt⟩ else none)

/-- The method `update(now)` (the dispatch engine): computes `deltaTime`
from `lastUpdate`, updates `lastUpdate`, computes `jitter` against the
`delay` getter, accumulates `totalJitter`, then runs the three phases. -/
def dispatch (s : LoopState) (now : JSNum) : LoopState :=
  let dt := JSNum.sub now s.lastUpdate
  let j := JSNum.abs (JSNum.sub dt s.delay)
  { s with
      lastUpdate := now
      jitter := some j
      totalJitter := JSNum.add s.totalJitter j
      trace := s.trace ++ dispatchEvents s.objects dt }

/-- The getter `get averageJitter() { return this.totalJitter / this.frame; }`. -/
def averageJitter (s : LoopState) : JSNum :=
  JSNum.div s.totalJitter s.frame

/-- The eligibility test of the RAF driver's update:
`!this.targetFPS || frame > this.frame`. -/
def rafEligible (s : LoopState) (fr : JSNum) : Bool :=
  targetFalsy s || JSNum.gtb fr s.frame

/-- The RAF driver's `update` closure, run with `this.loop.startTime = st`
at timestamp `now`: computes `frame` from the elapsed time since
`startTime` (an undefined `startTime` makes the subtraction NaN), and on
an eligible signal sets `droppedFrame`, overwrites `this.frame`,
dispatches, and re-records `lastUpdate`; in every case it re-arms the
animation-frame request at the end. -/
def rafTick (s : LoopState) (st : Option JSNum) (now : JSNum) : LoopState :=
  let stN := match st with
    | none => JSNum.nan
    | some t => t
  let fr := JSNum.floor (JSNum.div (JSNum.sub now stN) s.delay)
  let s1 :=
    if rafEligible s fr then
      let sa := { s with
        droppedFrame := some (JSNum.geb (JSNum.sub s.frame fr) (JSNum.fin 2))
        frame := fr }
      let sb := dispatch sa now
      { sb with lastUpdate := now }
    else s
  { s1 with loop := some (Driver.raf st true) }

/-- The interval driver's `update` closure: `this.frame += 1` then
`this.update(performance.now())`. -/
def intervalTick (s : LoopState) (now : JSNum) : LoopState :=
  dispatch { s with frame := JSNum.add s.frame (JSNum.fin 1) } now

/-- A firing of the `setInterval` primitive at time `now`: it reaches the
interval driver's update closure only while the interval is armed
(`clearInterval` also removes an already queued firing). -/
def fireTimer (s : LoopState) (now : JSNum) : LoopState :=
  match s.loop with
  | some (Driver.interval true) => intervalTick s now
  | _ => s

/-- A firing of the `requestAnimationFrame` primitive at time `now`: it
reaches the RAF driver's update closure only while a request is pending
(`cancelAnimationFrame` also removes an already queued callback). -/
def fireRAF (s : LoopState) (now : JSNum) : LoopState :=
  match s.loop with
  | some (Driver.raf st true) => rafTick s st now
  | _ => s

/-- A firing of the `setInterval` chain of the `i`-th leaked driver.
The callback that `createIntervalLoop` handed to `setInterval` is the
arrow `() => { this.frame += 1; this.update(performance.now()); }`,
which closes over the instance only (not over the loop object), so a
leaked chain's firing acts on the current instance state exactly like a
live one — and nothing ever cancels it, because `stop()` only runs
`clearInterval(this.loop.timer)` on the driver currently referenced by
`this.loop`.  (A leaked RAF chain's queued callback instead reads the
re-pointed `this.loop` when it fires; no firing event is defined for it
here.) -/
def fireOrphanTimer (s : LoopState) (i : ℕ) (now : JSNum) : LoopState :=
  match s.orphans.get? i with
  | some (Driver.interval true) => intervalTick s now
  | _ => s

/-- The method `start()`.  `t1` is the `performance.now()` read stored
into `lastUpdate`, `t2` the read inside the RAF driver's forced first
update, `t3` the read stored into `this.loop.startTime` (three distinct
call sites in the source).  The boolean result is true when the method
threw `Invalid UpdateLoop Mode`; the state returned alongside carries
the mutations already performed before the throw.

When the guard passes and a new driver object is assigned to
`this.loop`, the previous driver object — whose platform primitive the
source never cancels — is moved to `orphans`: a still-armed leaked
interval chain keeps firing (see `fireOrphanTimer`).  On an invalid
mode the method throws before any driver is created, so nothing is
leaked. -/
def startFn (s : LoopState) (t1 t2 t3 : JSNum) : LoopState × Bool :=
  let s1 := { s with totalJitter := JSNum.fin 0, frame := JSNum.fin (-1) }
  if s1.timer = none then
    let s2 := { s1 with lastUpdate := t1 }
    if s2.mode = 0 then
      ({ s2 with
          loop := some (Driver.interval true)
          orphans := s2.orphans ++ s2.loop.toList
          active := true
          startCount := s2.startCount + 1 }, false)
    else if s2.mode = 1 then
      let s3 := { s2 with
        loop := some (Driver.raf none false)
        orphans := s2.orphans ++ s2.loop.toList
        active := true
        startCount := s2.startCount + 1 }
      let s4 := rafTick s3 none t2
      let s5 := match s4.loop with
        | some (Driver.raf _ p) => { s4 with loop := some (Driver.raf (some t3) p) }
        | _ => s4
      (s5, false)
    else
      (s2, true)
  else (s1, false)

/-- The method `stop()`: `this.loop.stop()` then `active = false` and
`frame = -1`.  When `this.loop` is still undefined the member access
throws a TypeError, modelled as `none`. -/
def stopFn (s : LoopState) : Option LoopState :=
  match s.loop with
  | none => none
  | some (Driver.interval _) =>
      some { s with
        loop := some (Driver.interval false)
        active := false
        frame := JSNum.fin (-1) }
  | some (Driver.raf st _) =>
      some { s with
        loop := some (Driver.raf st false)
        active := false
        frame := JSNum.fin (-1) }

/-- The constructor `constructor(targetFPS = 60, mode)`: fields are
initialised, `mode || UpdateLoop.INTERVAL` turns a falsy mode (for an
`Int`, exactly `0`) into `INTERVAL = 0`, and `start()` runs immediately. -/
def construct (fps : Option JSNum) (mode : Int) (t1 t2 t3 : JSNum) :
    LoopState × Bool :=
  startFn
    { objects := []
      active := false
      targetFPS := fps
      timer := none
      frame := JSNum.fin 0
      mode := if mode = 0 then 0 else mode
      totalJitter := JSNum.fin 0
      jitter := none
      lastUpdate := JSNum.nan
      loop := none
      orphans := []
      droppedFrame := none
      trace := []
      startCount := 0 } t1 t2 t3

/-- The method `register(obj)`: append iff not already present by
identity. -/
def registerFn (r : Registrant) (s : LoopState) : LoopState :=
  if r ∈ s.objects then s else { s with objects := s.objects ++ [r] }

/-- The method `unregister(obj)`: filter out the identical object. -/
def unregisterFn (r : Registrant) (s : LoopState) : LoopState :=
  { s with objects := s.objects.filter (fun stored => stored ≠ r) }

/-- A registration-interface call. -/
inductive RegOp where
  | reg : Registrant → RegOp
  | unreg : Registrant → RegOp
deriving DecidableEq, Repr

/-- Apply a sequence of `register`/`unregister` calls. -/
def applyOps (ops : List RegOp) (s : LoopState) : LoopState :=
  match ops with
  | [] => s
  | RegOp.reg r :: rest => applyOps rest (registerFn r s)
  | RegOp.unreg r :: rest => applyOps rest (unregisterFn r s)

/-- A run of the fixed-interval loop against a fake clock advancing in
16 ms steps: the loop is constructed (and hence started) at time `t0`
with `targetFPS = 60`, `mode = INTERVAL`, and the n-th timer firing
happens at `t0 + 16 n`. -/
def intervalRun (t0 : ℚ) : ℕ → LoopState
  | 0 => (construct (some (JSNum.fin 60)) 0 (JSNum.fin t0) (JSNum.fin t0) (JSNum.fin t0)).1
  | n + 1 => fireTimer (intervalRun t0 n) (JSNum.fin (t0 + 16 * (n + 1)))

/-- A registrant exposing only an `update` capability, used to observe
dispatches in the leaked-driver experiment. -/
def regE : Registrant := ⟨5, false, true, false, false⟩

/-- Leak scenario, step 0: `new UpdateLoop(60, INTERVAL)` at time 0 —
the constructor's `start()` arms the first interval chain. -/
def leakDemo0 : LoopState :=
  (construct (some (JSNum.fin 60)) 0 (JSNum.fin 0) (JSNum.fin 0) (JSNum.fin 0)).1

/-- Step 1: a registrant is registered. -/
def leakDemo1 : LoopState := registerFn regE leakDemo0

/-- Step 2: `start()` is called again at time 5.  The broken
`this.timer === null` guard lets it through: a second interval chain is
armed and the first one is leaked, still armed. -/
def leakDemo2 : LoopState :=
  (startFn leakDemo1 (JSNum.fin 5) (JSNum.fin 5) (JSNum.fin 5)).1

/-- Step 3: `stop()` — it runs `clearInterval(this.loop.timer)`, which
cancels only the second chain; the leaked first chain stays armed. -/
def leakDemo3 : LoopState := (stopFn leakDemo2).getD leakDemo2

/-- Three registrants that each expose all three phase capabilities. -/
def regA : Registrant := ⟨1, true, true, true, false⟩

/-- Second all-phase registrant. -/
def regB : Registrant := ⟨2, true, true, true, false⟩

/-- Third all-phase registrant. -/
def regC : Registrant := ⟨3, true, true, true, false⟩

/-- A loop with `regA`, `regB`, `regC` registered in that order. -/
def phaseDemo : LoopState :=
  registerFn regC (registerFn regB (registerFn regA
    ((construct (some (JSNum.fin 60)) 0 (JSNum.fin 0) (JSNum.fin 0) (JSNum.fin 0)).1)))

/-- A registrant used in the registered-set experiments. -/
def regD : Registrant := ⟨4, false, false, false, true⟩

/-- A refresh-sync loop constructed with `targetFPS = 0`. -/
def zeroTargetDemo : LoopState :=
  (construct (some (JSNum.fin 0)) 1 (JSNum.fin 0) (JSNum.fin 1) (JSNum.fin 2)).1

/-- Base state for the registered-set experiments (fresh interval loop,
empty registered set). -/
def regDemoBase : LoopState :=
  (construct (some (JSNum.fin 60)) 0 (JSNum.fin 0) (JSNum.fin 0) (JSNum.fin 0)).1

/-- The base state with `regD` registered. -/
def regDemoOne : LoopState := registerFn regD regDemoBase

/-- A fixed-interval loop constructed at time 0 after one timer firing at
time 20 (one tick of jitter `|20 - 16| = 4`). -/
def tickOnceDemo : LoopState :=
  fireTimer
    ((construct (some (JSNum.fin 60)) 0 (JSNum.fin 0) (JSNum.fin 0)
      (JSNum.fin 0)).1) (JSNum.fin 20)

/-- A refresh-sync loop (`targetFPS = 60`) constructed at time 0. -/
def rafDropDemo0 : LoopState :=
  (construct (some (JSNum.fin 60)) 1 (JSNum.fin 0) (JSNum.fin 0) (JSNum.fin 0)).1

/-- The same loop after a refresh signal at `t = 16` (first dispatched
tick, frame 1). -/
def rafDropDemo1 : LoopState := fireRAF rafDropDemo0 (JSNum.fin 16)

/-- The same loop after a further refresh signal at `t = 64` (next
dispatched tick, frame 4 — three nominal intervals later). -/
def rafDropDemo2 : LoopState := fireRAF rafDropDemo1 (JSNum.fin 64)

/-! ## Helper lemmas -/

/-- `Rat.floor` agrees with the mathematical floor function. -/
theorem ratFloor_eq_intFloor (a : ℚ) : (a.floor : ℤ) = ⌊a⌋ := by
  rw [Rat.floor_def', Rat.floor_def]

/-- Unfolding the constructor in fixed-interval mode: the loop comes up
active with a live interval timer, `frame = -1`, `totalJitter = 0`,
`lastUpdate = t1`, and nothing dispatched yet. -/
theorem construct_interval (fps : Option JSNum) (t1 t2 t3 : JSNum) :
    construct fps 0 t1 t2 t3 =
      ({ objects := [], active := true, targetFPS := fps, timer := none,
         frame := JSNum.fin (-1), mode := 0, totalJitter := JSNum.fin 0,
         jitter := none, lastUpdate := t1, loop := some (Driver.interval true),
         orphans := [], droppedFrame := none, trace := [], startCount := 1 },
       false) := rfl

/-- Addition of two finite JS numbers. -/
theorem jadd_fin (a b : ℚ) :
    JSNum.add (JSNum.fin a) (JSNum.fin b) = JSNum.fin (a + b) := rfl

/-- Negation of a finite JS number. -/
theorem jneg_fin (a : ℚ) : JSNum.neg (JSNum.fin a) = JSNum.fin (-a) := rfl

/-- Subtraction of two finite JS numbers. -/
theorem jsub_fin (a b : ℚ) :
    JSNum.sub (JSNum.fin a) (JSNum.fin b) = JSNum.fin (a - b) := by
  rw [JSNum.sub, jneg_fin, jadd_fin, ← sub_eq_add_neg]

/-- Division of finite JS numbers with a nonzero divisor. -/
theorem jdiv_fin (a b : ℚ) (h : b ≠ 0) :
    JSNum.div (JSNum.fin a) (JSNum.fin b) = JSNum.fin (a / b) := by
  simp [JSNum.div, h]

/-- `Math.floor` of a finite JS number. -/
theorem jfloor_fin (a : ℚ) :
    JSNum.floor (JSNum.fin a) = JSNum.fin (a.floor : ℚ) := rfl

/-- `Math.abs` of a finite JS number. -/
theorem jabs_fin (a : ℚ) : JSNum.abs (JSNum.fin a) = JSNum.fin |a| := rfl

/-- NaN absorbs addition on the right. -/
theorem jadd_nan_right (a : JSNum) : JSNum.add a JSNum.nan = JSNum.nan := by
  cases a <;> rfl

/-- Negation of NaN. -/
theorem jneg_nan : JSNum.neg JSNum.nan = JSNum.nan := rfl

/-- NaN absorbs subtraction on the right (`x - undefined` is NaN). -/
theorem jsub_nan_right (a : JSNum) : JSNum.sub a JSNum.nan = JSNum.nan := by
  rw [JSNum.sub, jneg_nan, jadd_nan_right]

/-- NaN absorbs division on the left. -/
theorem jdiv_nan_left (b : JSNum) : JSNum.div JSNum.nan b = JSNum.nan := by
  cases b <;> rfl

/-- `Math.floor` of NaN. -/
theorem jfloor_nan : JSNum.floor JSNum.nan = JSNum.nan := rfl

/-- Any `>` comparison with NaN on the left is false. -/
theorem jgtb_nan_left (b : JSNum) : JSNum.gtb JSNum.nan b = false := by
  cases b <;> rfl

/-- `>` on finite JS numbers. -/
theorem jgtb_fin (a b : ℚ) :
    JSNum.gtb (JSNum.fin a) (JSNum.fin b) = decide (b < a) := rfl

/-- `>=` on finite JS numbers. -/
theorem jgeb_fin (a b : ℚ) :
    JSNum.geb (JSNum.fin a) (JSNum.fin b) = decide (b ≤ a) := rfl

/-- One dispatch written as a record update: `lastUpdate` is advanced,
the tick's jitter is recorded and accumulated, and the phase walk is
appended to the trace. -/
theorem dispatch_eq (s : LoopState) (now : JSNum) :
    dispatch s now =
      { s with
          lastUpdate := now
          jitter :=
            some (JSNum.abs (JSNum.sub (JSNum.sub now s.lastUpdate) s.delay))
          totalJitter :=
            JSNum.add s.totalJitter
              (JSNum.abs (JSNum.sub (JSNum.sub now s.lastUpdate) s.delay))
          trace :=
            s.trace ++ dispatchEvents s.objects (JSNum.sub now s.lastUpdate) }
      := rfl

/-- A timer firing on a state with a live interval driver increments the
frame and dispatches. -/
theorem fireTimer_interval (s : LoopState) (now : JSNum)
    (hl : s.loop = some (Driver.interval true)) :
    fireTimer s now =
      dispatch { s with frame := JSNum.add s.frame (JSNum.fin 1) } now := by
  conv_lhs => rw [fireTimer, hl]
  rfl

/-- A refresh firing on a state with a pending RAF driver runs the RAF
update closure. -/
theorem fireRAF_raf (s : LoopState) (st : Option JSNum) (now : JSNum)
    (hl : s.loop = some (Driver.raf st true)) :
    fireRAF s now = rafTick s st now := by
  conv_lhs => rw [fireRAF, hl]

/-- The `delay` getter for a finite nonzero target FPS. -/
theorem delay_of_fin (s : LoopState) (q : ℚ)
    (h : s.targetFPS = some (JSNum.fin q)) (hq : q ≠ 0) :
    s.delay = JSNum.fin (((1000 : ℚ) / q).floor : ℚ) := by
  rw [LoopState.delay, h]
  rw [show targetAsNum (some (JSNum.fin q)) = JSNum.fin q from rfl]
  rw [jdiv_fin _ _ hq, jfloor_fin]

/-- The `delay` getter for the default target FPS of 60:
`floor(1000/60) = 16` milliseconds. -/
theorem delay_sixty (s : LoopState) (h : s.targetFPS = some (JSNum.fin 60)) :
    s.delay = JSNum.fin 16 := by
  rw [delay_of_fin s 60 h (by norm_num)]
  norm_num [Rat.floor_def']

/-- Unfolding the constructor in refresh-sync mode with a finite nonzero
target FPS: the forced `loop.update()` inside `start()` computes its
frame from the still-undefined `startTime` (NaN), fails the eligibility
test, and dispatches nothing; `startTime` is then set to the third clock
read and a refresh request is left pending. -/
theorem construct_raf_capped (q : ℚ) (hq : q ≠ 0) (t1 t2 t3 : JSNum) :
    construct (some (JSNum.fin q)) 1 t1 t2 t3 =
      ({ objects := [], active := true, targetFPS := some (JSNum.fin q),
         timer := none, frame := JSNum.fin (-1), mode := 1,
         totalJitter := JSNum.fin 0, jitter := none, lastUpdate := t1,
         loop := some (Driver.raf (some t3) true), orphans := [],
         droppedFrame := none, trace := [], startCount := 1 }, false) := by
  simp only [construct, startFn, rafTick, rafEligible, targetFalsy,
    JSNum.truthy, jsub_nan_right, jdiv_nan_left, jfloor_nan, jgtb_nan_left]
  norm_num [hq]

/-- The state after the first timer firing of a fixed-interval loop with
a finite nonzero target FPS: `frame` becomes `0`, and the tick's jitter
`|deltaTime - delay|` lands in both `jitter` and `totalJitter`. -/
theorem fireTimer_after_construct (fps : ℚ) (hne : fps ≠ 0) (t0 t1 : ℚ) :
    fireTimer
        ((construct (some (JSNum.fin fps)) 0 (JSNum.fin t0) (JSNum.fin t0)
          (JSNum.fin t0)).1) (JSNum.fin t1) =
      { objects := [], active := true, targetFPS := some (JSNum.fin fps),
        timer := none, frame := JSNum.fin 0, mode := 0,
        totalJitter := JSNum.fin |t1 - t0 - (((1000 : ℚ) / fps).floor : ℚ)|,
        jitter := some (JSNum.fin |t1 - t0 - (((1000 : ℚ) / fps).floor : ℚ)|),
        lastUpdate := JSNum.fin t1, loop := some (Driver.interval true),
        orphans := [], droppedFrame := none, trace := [], startCount := 1 } := by
  rw [construct_interval]
  simp only [fireTimer, intervalTick, dispatch, dispatchEvents, LoopState.delay,
    targetAsNum, JSNum.div, JSNum.add, JSNum.sub, JSNum.neg, JSNum.abs,
    JSNum.floor, hne, if_false, ite_false, List.filterMap_nil, List.append_nil,
    List.nil_append]
  norm_num [sub_eq_add_neg]

/-- Evaluation of `tickOnceDemo`: one tick with `deltaTime = 20` against
`delay = 16` leaves jitter 4 and frame 0. -/
theorem tickOnceDemo_eq :
    tickOnceDemo =
      { objects := [], active := true, targetFPS := some (JSNum.fin 60),
        timer := none, frame := JSNum.fin 0, mode := 0,
        totalJitter := JSNum.fin 4, jitter := some (JSNum.fin 4),
        lastUpdate := JSNum.fin 20, loop := some (Driver.interval true),
        orphans := [], droppedFrame := none, trace := [], startCount := 1 } := by
  unfold tickOnceDemo
  rw [fireTimer_after_construct 60 (by norm_num) 0 20]
  norm_num [LoopState.mk.injEq, Rat.floor_def']

/-- Evaluation of `rafDropDemo0`. -/
theorem rafDropDemo0_eq :
    rafDropDemo0 =
      { objects := [], active := true, targetFPS := some (JSNum.fin 60),
        timer := none, frame := JSNum.fin (-1), mode := 1,
        totalJitter := JSNum.fin 0, jitter := none, lastUpdate := JSNum.fin 0,
        loop := some (Driver.raf (some (JSNum.fin 0)) true),
        orphans := [], droppedFrame := none, trace := [], startCount := 1 } := by
  unfold rafDropDemo0
  rw [construct_raf_capped 60 (by norm_num)]

/-- Evaluation of `rafDropDemo1`: the signal at `t = 16` computes
`elapsedFrames = 1 > -1`, dispatches, and sets `droppedFrame` to
`(-1) - 1 >= 2`, i.e. `false`. -/
theorem rafDropDemo1_eq :
    rafDropDemo1 =
      { objects := [], active := true, targetFPS := some (JSNum.fin 60),
        timer := none, frame := JSNum.fin 1, mode := 1,
        totalJitter := JSNum.fin 0, jitter := some (JSNum.fin 0),
        lastUpdate := JSNum.fin 16,
        loop := some (Driver.raf (some (JSNum.fin 0)) true), orphans := [],
        droppedFrame := some false, trace := [], startCount := 1 } := by
  unfold rafDropDemo1
  rw [rafDropDemo0_eq, fireRAF_raf _ (some (JSNum.fin 0)) _ rfl]
  norm_num [rafTick, rafEligible, targetFalsy, JSNum.truthy, delay_sixty,
    jsub_fin, jdiv_fin, jfloor_fin, jgtb_fin, jgeb_fin, dispatch_eq, jadd_fin,
    jabs_fin, dispatchEvents, LoopState.mk.injEq, Rat.floor_def']

/-- Evaluation of `rafDropDemo2`: the signal at `t = 64` computes
`elapsedFrames = 4 > 1` (three nominal intervals after the previous
dispatched tick), dispatches, and still sets `droppedFrame` to `false`
because the code evaluates `1 - 4 >= 2`. -/
theorem rafDropDemo2_eq :
    rafDropDemo2 =
      { objects := [], active := true, targetFPS := some (JSNum.fin 60),
        timer := none, frame := JSNum.fin 4, mode := 1,
        totalJitter := JSNum.fin 32, jitter := some (JSNum.fin 32),
        lastUpdate := JSNum.fin 64,
        loop := some (Driver.raf (some (JSNum.fin 0)) true), orphans := [],
        droppedFrame := some false, trace := [], startCount := 1 } := by
  unfold rafDropDemo2
  rw [rafDropDemo1_eq, fireRAF_raf _ (some (JSNum.fin 0)) _ rfl]
  norm_num [rafTick, rafEligible, targetFalsy, JSNum.truthy, delay_sixty,
    jsub_fin, jdiv_fin, jfloor_fin, jgtb_fin, jgeb_fin, dispatch_eq, jadd_fin,
    jabs_fin, dispatchEvents, LoopState.mk.injEq, Rat.floor_def']

/-- `register` keeps the registered set duplicate-free. -/
theorem registerFn_objects_nodup (r : Registrant) (s : LoopState)
    (h : s.objects.Nodup) : (registerFn r s).objects.Nodup := by
  unfold registerFn
  split
  · exact h
  · next hmem => simp [List.nodup_append, h, hmem]

/-- `unregister` keeps the registered set duplicate-free. -/
theorem unregisterFn_objects_nodup (r : Registrant) (s : LoopState)
    (h : s.objects.Nodup) : (unregisterFn r s).objects.Nodup :=
  h.filter _

/-- Any sequence of `register`/`unregister` calls keeps the registered
set duplicate-free. -/
theorem applyOps_objects_nodup (ops : List RegOp) :
    ∀ s : LoopState, s.objects.Nodup → (applyOps ops s).objects.Nodup := by
  induction ops with
  | nil => intro s h; exact h
  | cons op rest ih =>
    intro s h
    cases op with
    | reg r => exact ih _ (registerFn_objects_nodup r s h)
    | unreg r => exact ih _ (unregisterFn_objects_nodup r s h)

/-- Closed form of the fixed-interval run `intervalRun`: after `n` timer
firings the frame counter is `n - 1`, every dispatched tick had zero
jitter (the 16 ms steps match `delay = floor(1000/60) = 16` exactly),
and `lastUpdate` tracks the fake clock. -/
theorem intervalRun_eq (t0 : ℚ) (n : ℕ) :
    intervalRun t0 n =
      { objects := [], active := true, targetFPS := some (JSNum.fin 60),
        timer := none, frame := JSNum.fin ((n : ℚ) - 1), mode := 0,
        totalJitter := JSNum.fin 0,
        jitter := if n = 0 then none else some (JSNum.fin 0),
        lastUpdate := JSNum.fin (t0 + 16 * n),
        loop := some (Driver.interval true), orphans := [],
        droppedFrame := none, trace := [], startCount := 1 } := by
  induction n with
  | zero =>
    rw [intervalRun, construct_interval]
    norm_num
  | succ k ih =>
    rw [intervalRun, ih, fireTimer_interval _ _ rfl, dispatch_eq]
    norm_num [delay_sixty, jadd_fin, jsub_fin, jabs_fin, dispatchEvents,
      LoopState.mk.injEq]
    ring

/-! ## The claims -/

/-- C1: the claim says `start()` is an idempotent no-op on a running
loop.  The code violates it: in the run below a fixed-interval loop has
`totalJitter = 4` and `frame = 0` after one tick, yet a second `start()`
resets `totalJitter` to `0` and `frame` to `-1` (those writes precede
the guard) and runs a second driver start (`startCount` goes to 2),
because the guard `this.timer === null` tests a field that is never
assigned after the constructor. -/
theorem c1_second_start_resets_state :
    tickOnceDemo.totalJitter = JSNum.fin 4 ∧
      tickOnceDemo.frame = JSNum.fin 0 ∧
      (startFn tickOnceDemo (JSNum.fin 25) (JSNum.fin 25)
          (JSNum.fin 25)).1.totalJitter = JSNum.fin 0 ∧
      (startFn tickOnceDemo (JSNum.fin 25) (JSNum.fin 25)
          (JSNum.fin 25)).1.frame = JSNum.fin (-1) ∧
      (startFn tickOnceDemo (JSNum.fin 25) (JSNum.fin 25)
          (JSNum.fin 25)).1.startCount = 2 ∧
      (startFn tickOnceDemo (JSNum.fin 25) (JSNum.fin 25)
          (JSNum.fin 25)).2 = false := by
  rw [tickOnceDemo_eq]
  exact ⟨rfl, rfl, rfl, rfl, rfl, rfl⟩

/-- C2: the claim says tick 0 fires synchronously inside `start()` for
every target rate.  The code violates it for a set target rate: below, a
refresh-sync loop with `targetFPS = 60` is constructed, a registrant is
added, the loop is stopped and started again — and the forced
`loop.update()` inside `start()` dispatches nothing (`trace` stays
empty, `jitter` is never assigned, `frame` stays `-1`), because it
computes elapsed frames from the still-undefined `startTime` (NaN) and
the eligibility test fails.  `startTime` is indeed only captured after
the forced call (it ends up `102`, the third clock read).  With a falsy
target FPS the forced tick does dispatch (`jitter` gets assigned at
construction), confirming the skip is specific to a set target rate. -/
theorem c2_forced_tick_skipped_when_capped :
    (let r : Registrant := ⟨7, false, true, false, false⟩
     let s0 := (construct (some (JSNum.fin 60)) 1 (JSNum.fin 0) (JSNum.fin 1)
       (JSNum.fin 2)).1
     let s1 := registerFn r s0
     let s2 := (stopFn s1).getD s1
     let q := startFn s2 (JSNum.fin 100) (JSNum.fin 101) (JSNum.fin 102)
     (stopFn s1).isSome = true ∧ q.2 = false ∧
       s0.jitter = none ∧ s0.trace = [] ∧
       q.1.trace = [] ∧ q.1.jitter = none ∧ q.1.frame = JSNum.fin (-1) ∧
       q.1.loop = some (Driver.raf (some (JSNum.fin 102)) true) ∧
       ((construct none 1 (JSNum.fin 0) (JSNum.fin 1) (JSNum.fin 2)).1.jitter
          = some JSNum.inf)) := by
  decide

/-- C3: the claim says `droppedFrame` is true exactly when two or more
nominal tick intervals elapsed between consecutive dispatched ticks.
The code violates it: below, a refresh-sync loop (`targetFPS = 60`,
`delay = 16`) dispatches at `t = 16` (frame 1) and next at `t = 64`
(frame 4), i.e. three nominal intervals apart, yet `droppedFrame` is
`false`, because the code computes `this.frame - frame >= 2` with the
old frame on the left — a quantity that is negative on every eligible
capped tick, so the flag can never be true. -/
theorem c3_droppedFrame_false_after_skip :
    rafDropDemo1.frame = JSNum.fin 1 ∧
      rafDropDemo1.droppedFrame = some false ∧
      rafDropDemo2.frame = JSNum.fin 4 ∧
      rafDropDemo2.droppedFrame = some false := by
  rw [rafDropDemo1_eq, rafDropDemo2_eq]
  exact ⟨rfl, rfl, rfl, rfl⟩

/-- C4: the claim says that after `stop()` returns no registrant
callback is ever invoked again until a subsequent `start()`, in either
timing mode.  The code violates it through a leak reachable from the
public API alone: in the run below, the constructor arms an interval
chain, a second `start()` passes the broken `this.timer === null` guard
and arms a second chain while leaking the first (still armed), and
`stop()` runs `clearInterval(this.loop.timer)`, cancelling only the
second chain.  Afterwards the loop is inactive, a firing of the
cancelled current driver is indeed absorbed (in both modes) — but the
leaked chain's next firing still increments `frame` and dispatches the
registrant's `update` callback. -/
theorem c4_leaked_interval_dispatches_after_stop :
    leakDemo3.active = false ∧
      (stopFn leakDemo2).isSome = true ∧
      fireTimer leakDemo3 (JSNum.fin 30) = leakDemo3 ∧
      fireRAF leakDemo3 (JSNum.fin 30) = leakDemo3 ∧
      leakDemo3.orphans = [Driver.interval true] ∧
      leakDemo3.trace = [] ∧
      (fireOrphanTimer leakDemo3 0 (JSNum.fin 30)).trace =
        [⟨Phase.upd, regE, JSNum.fin 25⟩] ∧
      (fireOrphanTimer leakDemo3 0 (JSNum.fin 30)).frame = JSNum.fin 0 := by
  have h3 : leakDemo3 =
      { objects := [regE], active := false,
        targetFPS := some (JSNum.fin 60), timer := none,
        frame := JSNum.fin (-1), mode := 0, totalJitter := JSNum.fin 0,
        jitter := none, lastUpdate := JSNum.fin 5,
        loop := some (Driver.interval false),
        orphans := [Driver.interval true], droppedFrame := none,
        trace := [], startCount := 2 } := by
    decide
  refine ⟨by rw [h3], by decide, by rw [h3]; rfl, by rw [h3]; rfl, by rw [h3],
    by rw [h3], ?_, ?_⟩ <;>
  · rw [h3]
    norm_num [fireOrphanTimer, List.get?, intervalTick, dispatch_eq, jadd_fin,
      jsub_fin, jabs_fin, dispatchEvents, List.filterMap, regE, delay_sixty]

/-- C5: one tick dispatches the three phases in order, each phase
walking the whole registered set in insertion order before the next
phase starts; for registrants `a`, `b`, `c` all exposing all three
capabilities the observed call order is exactly
early a,b,c then update a,b,c then late a,b,c, each invoked with
`deltaTime = now - lastUpdate`. -/
theorem c5_phase_order (a b c : Registrant) (s : LoopState) (now : JSNum)
    (hobj : s.objects = [a, b, c])
    (ha1 : a.hasEarly = true) (ha2 : a.hasUpd = true) (ha3 : a.hasLate = true)
    (hb1 : b.hasEarly = true) (hb2 : b.hasUpd = true) (hb3 : b.hasLate = true)
    (hc1 : c.hasEarly = true) (hc2 : c.hasUpd = true) (hc3 : c.hasLate = true) :
    (dispatch s now).trace =
      s.trace ++
        ([⟨Phase.early, a, JSNum.sub now s.lastUpdate⟩,
          ⟨Phase.early, b, JSNum.sub now s.lastUpdate⟩,
          ⟨Phase.early, c, JSNum.sub now s.lastUpdate⟩,
          ⟨Phase.upd, a, JSNum.sub now s.lastUpdate⟩,
          ⟨Phase.upd, b, JSNum.sub now s.lastUpdate⟩,
          ⟨Phase.upd, c, JSNum.sub now s.lastUpdate⟩,
          ⟨Phase.late, a, JSNum.sub now s.lastUpdate⟩,
          ⟨Phase.late, b, JSNum.sub now s.lastUpdate⟩,
          ⟨Phase.late, c, JSNum.sub now s.lastUpdate⟩] : List Event) := by
  simp [dispatch, dispatchEvents, hobj, ha1, ha2, ha3, hb1, hb2, hb3, hc1,
    hc2, hc3]

/-- Witness for C5 on a concrete loop holding `regA`, `regB`, `regC`. -/
theorem c5_phase_order_witness :
    (dispatch phaseDemo (JSNum.fin 30)).trace =
      phaseDemo.trace ++
        ([⟨Phase.early, regA, JSNum.sub (JSNum.fin 30) phaseDemo.lastUpdate⟩,
          ⟨Phase.early, regB, JSNum.sub (JSNum.fin 30) phaseDemo.lastUpdate⟩,
          ⟨Phase.early, regC, JSNum.sub (JSNum.fin 30) phaseDemo.lastUpdate⟩,
          ⟨Phase.upd, regA, JSNum.sub (JSNum.fin 30) phaseDemo.lastUpdate⟩,
          ⟨Phase.upd, regB, JSNum.sub (JSNum.fin 30) phaseDemo.lastUpdate⟩,
          ⟨Phase.upd, regC, JSNum.sub (JSNum.fin 30) phaseDemo.lastUpdate⟩,
          ⟨Phase.late, regA, JSNum.sub (JSNum.fin 30) phaseDemo.lastUpdate⟩,
          ⟨Phase.late, regB, JSNum.sub (JSNum.fin 30) phaseDemo.lastUpdate⟩,
          ⟨Phase.late, regC, JSNum.sub (JSNum.fin 30) phaseDemo.lastUpdate⟩]
          : List Event) :=
  c5_phase_order regA regB regC phaseDemo (JSNum.fin 30) (by decide)
    rfl rfl rfl rfl rfl rfl rfl rfl rfl

/-- C6 counterexample: the claim says `averageJitter` after exactly one
tick equals that tick's `jitter`.  In the run below (fixed-interval
loop, one tick of jitter 4) `averageJitter = 4 / 0 = Infinity ≠ 4`. -/
theorem c6_counterexample :
    tickOnceDemo.jitter = some (JSNum.fin 4) ∧
      averageJitter tickOnceDemo = JSNum.inf ∧
      ¬ averageJitter tickOnceDemo = JSNum.fin 4 := by
  rw [tickOnceDemo_eq]
  refine ⟨rfl, ?_, ?_⟩
  · norm_num [averageJitter, JSNum.div]
  · norm_num [averageJitter, JSNum.div]
    decide

/-- C6 (amended): after exactly one tick of a fixed-interval loop,
`totalJitter` equals that tick's `jitter`, but `averageJitter`
(`totalJitter / frame` with `frame = 0`) is NaN when the jitter is zero
and Infinity otherwise — a non-finite value, not the tick's jitter. -/
theorem c6_first_tick_average_jitter (fps t0 t1 : ℚ) (h : 0 < fps) :
    (let s := fireTimer ((construct (some (JSNum.fin fps)) 0 (JSNum.fin t0)
      (JSNum.fin t0) (JSNum.fin t0)).1) (JSNum.fin t1)
     s.jitter = some (JSNum.fin |t1 - t0 - (((1000 : ℚ) / fps).floor : ℚ)|) ∧
       s.totalJitter = JSNum.fin |t1 - t0 - (((1000 : ℚ) / fps).floor : ℚ)| ∧
       s.frame = JSNum.fin 0 ∧
       (averageJitter s = JSNum.nan ∨ averageJitter s = JSNum.inf)) := by
  rw [fireTimer_after_construct fps (ne_of_gt h) t0 t1]
  refine ⟨rfl, rfl, rfl, ?_⟩
  by_cases hz : |t1 - t0 - (((1000 : ℚ) / fps).floor : ℚ)| = 0
  · left
    simp [averageJitter, JSNum.div, hz]
  · right
    have hpos : 0 < |t1 - t0 - (((1000 : ℚ) / fps).floor : ℚ)| :=
      lt_of_le_of_ne (abs_nonneg _) (Ne.symm hz)
    simp [averageJitter, JSNum.div, hz, hpos]

/-- Witness for the amended C6 at `fps = 60`, `t0 = 0`, `t1 = 20`. -/
theorem c6_first_tick_average_jitter_witness :
    (let s := fireTimer ((construct (some (JSNum.fin 60)) 0 (JSNum.fin 0)
      (JSNum.fin 0) (JSNum.fin 0)).1) (JSNum.fin 20)
     s.jitter = some (JSNum.fin |20 - 0 - (((1000 : ℚ) / 60).floor : ℚ)|) ∧
       s.totalJitter = JSNum.fin |20 - 0 - (((1000 : ℚ) / 60).floor : ℚ)| ∧
       s.frame = JSNum.fin 0 ∧
       (averageJitter s = JSNum.nan ∨ averageJitter s = JSNum.inf)) :=
  c6_first_tick_average_jitter 60 0 20 (by norm_num)

/-- C7: `start()` with a mode other than `INTERVAL = 0` and `RAF = 1`
throws synchronously, and the loop ends up with `active = false`, no
driver instantiated, and no driver start having run. -/
theorem c7_invalid_mode (fps : Option JSNum) (m : Int) (t1 t2 t3 : JSNum)
    (h0 : m ≠ 0) (h1 : m ≠ 1) :
    (construct fps m t1 t2 t3).2 = true ∧
      (construct fps m t1 t2 t3).1.active = false ∧
      (construct fps m t1 t2 t3).1.loop = none ∧
      (construct fps m t1 t2 t3).1.startCount = 0 := by
  simp [construct, startFn, h0, h1]

/-- Witness for C7 at `mode = 99`. -/
theorem c7_invalid_mode_witness :
    (construct (some (JSNum.fin 60)) 99 (JSNum.fin 0) (JSNum.fin 0)
        (JSNum.fin 0)).2 = true ∧
      (construct (some (JSNum.fin 60)) 99 (JSNum.fin 0) (JSNum.fin 0)
        (JSNum.fin 0)).1.active = false ∧
      (construct (some (JSNum.fin 60)) 99 (JSNum.fin 0) (JSNum.fin 0)
        (JSNum.fin 0)).1.loop = none ∧
      (construct (some (JSNum.fin 60)) 99 (JSNum.fin 0) (JSNum.fin 0)
        (JSNum.fin 0)).1.startCount = 0 :=
  c7_invalid_mode (some (JSNum.fin 60)) 99 (JSNum.fin 0) (JSNum.fin 0)
    (JSNum.fin 0) (by decide) (by decide)

/-- C8: the registered set stays duplicate-free under every sequence of
`register`/`unregister` calls; `register` appends at the end exactly
when the registrant is absent (identity comparison) and is a no-op when
present; `unregister` removes the registrant (it is absent afterwards)
while keeping the remaining registrants a sublist in their insertion
order, and is a no-op when the registrant is absent. -/
theorem c8_registered_set_invariants (ops : List RegOp) (r : Registrant)
    (s : LoopState) (h : s.objects.Nodup) :
    (applyOps ops s).objects.Nodup ∧
      (r ∈ s.objects → registerFn r s = s) ∧
      (r ∉ s.objects → (registerFn r s).objects = s.objects ++ [r]) ∧
      r ∉ (unregisterFn r s).objects ∧
      (unregisterFn r s).objects.Sublist s.objects ∧
      (r ∉ s.objects → (unregisterFn r s).objects = s.objects) := by
  refine ⟨applyOps_objects_nodup ops s h, ?_, ?_, ?_, ?_, ?_⟩
  · intro hm
    simp [registerFn, hm]
  · intro hm
    simp [registerFn, hm]
  · simp [unregisterFn, List.mem_filter]
  · exact List.filter_sublist _
  · intro hm
    simp only [unregisterFn]
    refine List.filter_eq_self.mpr fun a ha => ?_
    simp only [ne_eq, decide_eq_true_eq]
    rintro rfl
    exact hm ha

/-- Witness for C8 on concrete registered sets. -/
theorem c8_registered_set_invariants_witness :
    (applyOps [RegOp.reg regD, RegOp.reg regD, RegOp.unreg regD]
        regDemoBase).objects.Nodup ∧
      registerFn regD regDemoOne = regDemoOne ∧
      (registerFn regD regDemoBase).objects = regDemoBase.objects ++ [regD] ∧
      regD ∉ (unregisterFn regD regDemoOne).objects ∧
      (unregisterFn regD regDemoOne).objects.Sublist regDemoOne.objects :=
  ⟨(c8_registered_set_invariants [RegOp.reg regD, RegOp.reg regD,
      RegOp.unreg regD] regD regDemoBase (by decide)).1,
    (c8_registered_set_invariants [] regD regDemoOne (by decide)).2.1
      (by decide),
    (c8_registered_set_invariants [] regD regDemoBase (by decide)).2.2.1
      (by decide),
    (c8_registered_set_invariants [] regD regDemoOne (by decide)).2.2.2.1,
    (c8_registered_set_invariants [] regD regDemoOne (by decide)).2.2.2.2.1⟩

/-- C9: driving a fixed-interval loop (`targetFPS = 60`) with a fake
clock advancing in 16 ms steps, after `n` timer firings the frame
counter is `n - 1` (each firing increments it by 1 from the `-1`
sentinel), and after every dispatched tick the jitter equals
`|16 - floor(1000/60)|` (which is `0`). -/
theorem c9_fixed_interval_run (t0 : ℚ) (n : ℕ) :
    (intervalRun t0 n).frame = JSNum.fin ((n : ℚ) - 1) ∧
      (0 < n → (intervalRun t0 n).jitter =
        some (JSNum.fin |16 - (((1000 : ℚ) / 60).floor : ℚ)|)) := by
  rw [intervalRun_eq]
  refine ⟨rfl, fun hn => ?_⟩
  have hz : n ≠ 0 := Nat.pos_iff_ne_zero.mp hn
  have hdel : ((1000 : ℚ) / 60).floor = 16 := by norm_num [Rat.floor_def']
  simp [hz, hdel]

/-- Witness for C9 after two firings from `t0 = 0`. -/
theorem c9_fixed_interval_run_witness :
    (intervalRun 0 2).frame = JSNum.fin ((2 : ℚ) - 1) ∧
      (intervalRun 0 2).jitter =
        some (JSNum.fin |16 - (((1000 : ℚ) / 60).floor : ℚ)|) :=
  ⟨(c9_fixed_interval_run 0 2).1, (c9_fixed_interval_run 0 2).2 (by norm_num)⟩

/-- C10: a refresh-sync loop with `targetFPS = 0` behaves exactly like
one with `targetFPS = null`: the eligibility test accepts every refresh
signal (any falsy target), every pending refresh firing produces exactly
one dispatch over the registered set, and the whole state transition of
a firing is identical to the `null` case (up to the stored `targetFPS`
itself). -/
theorem c10_zero_target_uncapped (s : LoopState) (st : Option JSNum)
    (now : JSNum) (h : s.targetFPS = some (JSNum.fin 0))
    (hl : s.loop = some (Driver.raf st true)) :
    (∀ fr, rafEligible s fr = true) ∧
      (fireRAF s now).trace =
        s.trace ++ dispatchEvents s.objects (JSNum.sub now s.lastUpdate) ∧
      fireRAF { s with targetFPS := none } now =
        { fireRAF s now with targetFPS := none } := by
  obtain ⟨obj, act, tf, tm, fr0, md, tj, ji, lu, lp, orp, df, tr, sc⟩ := s
  replace h : tf = some (JSNum.fin 0) := h
  replace hl : lp = some (Driver.raf st true) := hl
  subst h
  subst hl
  refine ⟨fun fr => ?_, ?_, ?_⟩
  · simp [rafEligible, targetFalsy, JSNum.truthy]
  · simp [fireRAF, rafTick, rafEligible, targetFalsy, JSNum.truthy, dispatch]
  · simp [fireRAF, rafTick, rafEligible, targetFalsy, JSNum.truthy, dispatch,
      LoopState.delay, targetAsNum]

/-- Witness for C10 at the concrete zero-target loop. -/
theorem c10_zero_target_uncapped_witness :
    rafEligible zeroTargetDemo JSNum.nan = true ∧
      (fireRAF zeroTargetDemo (JSNum.fin 9)).trace =
        zeroTargetDemo.trace ++
          dispatchEvents zeroTargetDemo.objects
            (JSNum.sub (JSNum.fin 9) zeroTargetDemo.lastUpdate) ∧
      fireRAF { zeroTargetDemo with targetFPS := none } (JSNum.fin 9) =
        { fireRAF zeroTargetDemo (JSNum.fin 9) with targetFPS := none } :=
  ⟨(c10_zero_target_uncapped zeroTargetDemo (some (JSNum.fin 2)) (JSNum.fin 9)
      (by decide) (by decide)).1 JSNum.nan,
    (c10_zero_target_uncapped zeroTargetDemo (some (JSNum.fin 2)) (JSNum.fin 9)
      (by decide) (by decide)).2.1,
    (c10_zero_target_uncapped zeroTargetDemo (some (JSNum.fin 2)) (JSNum.fin 9)
      (by decide) (by decide)).2.2⟩

end UpdateLoopModel
